import Mathlib

/-!
Shallow embedding of the MirrorX endpoint runtime
(mirrorx_core/src/service/endpoint/endpoint.rs) and proofs about the
claims of the specification.  Machine integers are modelled as Nat with
explicit reduction modulo 2^w where wrap-around matters; fallible code
returns Except; channels and maps are explicit functional state.
-/

namespace MirrorX

/-- Payload of the GetDisplayInfoRequest variant.  Modelled from the spec:
the concrete record lives in service/endpoint/message.rs, which is not
among the provided sources; its fields are irrelevant to the claims, so it
is kept as a token carrying an abstract identity. -/
structure GetDisplayInfoRequest where
  data : Nat
deriving DecidableEq, Repr

/-- Payload of the GetDisplayInfoResponse variant (see GetDisplayInfoRequest). -/
structure GetDisplayInfoResponse where
  data : Nat
deriving DecidableEq, Repr

/-- Payload of the StartMediaTransmissionRequest variant (see GetDisplayInfoRequest). -/
structure StartMediaTransmissionRequest where
  data : Nat
deriving DecidableEq, Repr

/-- Payload of the StartMediaTransmissionResponse variant (see GetDisplayInfoRequest). -/
structure StartMediaTransmissionResponse where
  data : Nat
deriving DecidableEq, Repr

/-- Payload of the VideoFrame variant (see GetDisplayInfoRequest). -/
structure VideoFrame where
  data : Nat
deriving DecidableEq, Repr

/-- Payload of the AudioFrame variant (see GetDisplayInfoRequest). -/
structure AudioFrame where
  data : Nat
deriving DecidableEq, Repr

/-- Payload of the MouseEventFrame variant (see GetDisplayInfoRequest). -/
structure MouseEventFrame where
  data : Nat
deriving DecidableEq, Repr

/-- The message union of the service endpoint.  Modelled from the spec and
from every use site in endpoint.rs (service/endpoint/message.rs is not
among the provided sources): the variants below are exactly those the
endpoint code references. -/
inductive EndPointMessage where
  | Error
  | GetDisplayInfoRequest (req : GetDisplayInfoRequest)
  | GetDisplayInfoResponse (resp : GetDisplayInfoResponse)
  | StartMediaTransmissionRequest (req : StartMediaTransmissionRequest)
  | StartMediaTransmissionResponse (resp : StartMediaTransmissionResponse)
  | VideoFrame (frame : VideoFrame)
  | AudioFrame (frame : AudioFrame)
  | MouseEventFrame (frame : MouseEventFrame)
deriving DecidableEq, Repr

/-- EndPointMessagePacketType from service/endpoint/message.rs, as used by
endpoint.rs: Request, Response or Push. -/
inductive EndPointMessagePacketType where
  | Request
  | Response
  | Push
deriving DecidableEq, Repr

/-- EndPointMessagePacket: the wire envelope, with the fields used by
endpoint.rs.  call_id is a u16 in the source, modelled as Nat (every id the
code produces is a fetch_add result reduced modulo 2^16). -/
structure EndPointMessagePacket where
  typ : EndPointMessagePacketType
  call_id : Option Nat
  message : EndPointMessage
deriving DecidableEq, Repr

/-- MirrorXError, with the constructors endpoint.rs uses.  The error
module itself is not among the provided sources; the payloads of the
IOError and Other constructors are abstracted to a numeric code. -/
inductive MirrorXError where
  | Timeout
  | IOError (code : Nat)
  | Other (code : Nat)
  | EndPointError (remote_device_id : String)
deriving DecidableEq, Repr

/-! ## serve_reader: the per-frame step of the reader loop -/

/-- One item produced by stream.next() in serve_reader: the stream closed
(None), a read error (Some(Err)) or a raw sealed frame (Some(Ok)). -/
inductive StreamItem where
  | closed
  | readError
  | frame (packet_bytes : List Nat)
deriving DecidableEq, Repr

/-- What one iteration of the serve_reader loop does: break out of the
loop (after which ENDPOINTS.remove runs and the session is gone), or spawn
handle_message on a decoded packet and continue with the next frame. -/
inductive ReaderAction where
  | exitLoop
  | dispatch (packet : EndPointMessagePacket)
deriving DecidableEq, Repr

/-- The body of the serve_reader loop in endpoint.rs, for one stream item:
stream end or read error break; then open_in_place (decryption), whose
failure breaks; then BINCODE deserialization, whose failure also breaks;
only a fully decoded packet is dispatched.  Decryption and deserialization
are parameters (they live in external crates). -/
def serve_reader_step
    (open_in_place : List Nat → Except Unit (List Nat))
    (deserialize : List Nat → Except Unit EndPointMessagePacket)
    (item : StreamItem) : ReaderAction :=
  match item with
  | .closed => .exitLoop
  | .readError => .exitLoop
  | .frame packet_bytes =>
    match open_in_place packet_bytes with
    | .error _ => .exitLoop
    | .ok opened_packet_bytes =>
      match deserialize opened_packet_bytes with
      | .error _ => .exitLoop
      | .ok packet => .dispatch packet

/-! ## Message multiplexer state: atomic call id counter and pending-call map -/

/-- One fetch_add(1, SeqCst) on the AtomicU16 atomic_call_id: returns the
old value (the allocated call id) and the new stored value; a u16 wraps
modulo 2^16 = 65536. -/
def fetch_add_u16 (c : Nat) : Nat × Nat :=
  (c % 65536, (c + 1) % 65536)

/-- The pending-call map call_reply_tx_map, call id to the one-shot sender
slot (the slot is abstracted to a numeric token identifying the waiting
call).  An association list with insert-replaces semantics models the
DashMap. -/
def PendingCalls := List (Nat × Nat)

/-- Lookup of a pending one-shot slot by call id. -/
def lookup_call (m : PendingCalls) (call_id : Nat) : Option Nat :=
  (List.find? (fun e => e.1 = call_id) m).map (fun e => e.2)

/-- register_call in endpoint.rs: creates a one-shot channel and inserts
the sender into call_reply_tx_map; DashMap insert replaces any slot
already stored under the same id. -/
def register_call (m : PendingCalls) (call_id : Nat) (slot : Nat) : PendingCalls :=
  (call_id, slot) :: List.filter (fun e => e.1 ≠ call_id) m

/-- remove_call in endpoint.rs: removes and returns the slot under the
id, if any. -/
def remove_call (m : PendingCalls) (call_id : Nat) : PendingCalls × Option Nat :=
  (List.filter (fun e => e.1 ≠ call_id) m, lookup_call m call_id)

/-- set_call_reply in endpoint.rs: remove_call followed by delivering the
message into the removed slot; when no slot is present the map.send chain
does nothing and the reply is dropped.  Returns the new map and the slot
the message was delivered to (none means dropped). -/
def set_call_reply (m : PendingCalls) (call_id : Nat) : PendingCalls × Option Nat :=
  remove_call m call_id

/-- State of the per-session multiplexer: the u16 counter value and the
pending-call map. -/
structure MuxState where
  atomic_call_id : Nat
  call_reply_tx_map : PendingCalls

/-- What the environment does while call awaits its one-shot receiver
under the timeout: the reply arrives in time, the one-shot sender is
dropped without a reply (rx.await errs), or the timeout elapses first. -/
inductive CallEvent where
  | replyArrived (msg : EndPointMessage)
  | slotDropped
  | timeoutElapsed
deriving DecidableEq, Repr

/-- CALL_TIMEOUT in endpoint.rs: Duration::from_secs(5), in seconds. -/
def CALL_TIMEOUT_SECS : Nat := 5

/-- The Request envelope built by call for the allocated id. -/
def call_request_packet (call_id : Nat) (message : EndPointMessage) : EndPointMessagePacket :=
  { typ := .Request, call_id := some call_id, message := message }

/-- call(message, duration) in endpoint.rs: allocate a call id by
fetch_add on the u16 counter, build a Request envelope carrying it,
register the one-shot slot, then under the timeout send the packet and
await the receiver; the deferred remove_call runs on every exit path.
sendOk tells whether packet_tx.try_send succeeded; ev tells how the await
resolved.  Returns the state after the deferred cleanup, the result
handed to the caller, and the envelope that was submitted for sending. -/
def call (s : MuxState) (slot : Nat) (message : EndPointMessage)
    (sendOk : Bool) (ev : CallEvent) :
    MuxState × Except MirrorXError EndPointMessage × EndPointMessagePacket :=
  let allocated := fetch_add_u16 s.atomic_call_id
  let call_id := allocated.1
  let packet := call_request_packet call_id message
  let registered := register_call s.call_reply_tx_map call_id slot
  let result : Except MirrorXError EndPointMessage :=
    if sendOk then
      match ev with
      | .replyArrived msg => .ok msg
      | .slotDropped => .error .Timeout
      | .timeoutElapsed => .error .Timeout
    else
      .error (.Other 0)
  ({ atomic_call_id := allocated.2,
     call_reply_tx_map := (remove_call registered call_id).1 },
   result, packet)

/-- reply(call_id, message) in endpoint.rs: a Response envelope carrying
exactly the given call id. -/
def reply_packet (call_id : Nat) (message : EndPointMessage) : EndPointMessagePacket :=
  { typ := .Response, call_id := some call_id, message := message }

/-- trigger_mouse_event, the make_endpoint_push instance in endpoint.rs:
a Push envelope with no call id. -/
def trigger_mouse_event_packet (frame : MouseEventFrame) : EndPointMessagePacket :=
  { typ := .Push, call_id := none, message := .MouseEventFrame frame }

/-! ## handle_message: dispatch of one inbound envelope -/

/-- Identifies which push handler handle_message spawns. -/
inductive PushHandler where
  | videoFrame (frame : VideoFrame)
  | audioFrame (frame : AudioFrame)
  | mouseEventFrame (frame : MouseEventFrame)
deriving DecidableEq, Repr

/-- Observable effect of handle_message: submit an envelope to the writer
queue, deliver a Response into the pending-call slot of the given id, run
a push handler, or only write an error log line (the numeric code keys
the log site). -/
inductive HandleEffect where
  | sendPacket (packet : EndPointMessagePacket)
  | deliverReply (call_id : Nat) (msg : EndPointMessage)
  | runPushHandler (h : PushHandler)
  | logError (site : Nat)
deriving DecidableEq, Repr

/-- The handle_call_message macro body: with a call id present, run the
handler, wrap an Ok result in the response variant and turn an Err into
EndPointMessage::Error (after logging), then reply with the same call id;
with no call id only log. -/
def handle_call_message {α : Type} (call_id : Option Nat)
    (handlerResult : Except Unit α) (wrap : α → EndPointMessage) : List HandleEffect :=
  match call_id with
  | some id =>
    match handlerResult with
    | .ok resp => [.sendPacket (reply_packet id (wrap resp))]
    | .error _ => [.logError 1, .sendPacket (reply_packet id .Error)]
  | none => [.logError 0]

/-- handle_message in endpoint.rs.  The two request handlers live in
service/endpoint/handler.rs, which is not among the provided sources, so
they are parameters; their outcome is Ok with a response or Err. -/
def handle_message
    (gdi : GetDisplayInfoRequest → Except Unit GetDisplayInfoResponse)
    (smt : StartMediaTransmissionRequest → Except Unit StartMediaTransmissionResponse)
    (packet : EndPointMessagePacket) : List HandleEffect :=
  match packet.typ with
  | .Request =>
    match packet.message with
    | .GetDisplayInfoRequest req =>
      handle_call_message packet.call_id (gdi req) EndPointMessage.GetDisplayInfoResponse
    | .StartMediaTransmissionRequest req =>
      handle_call_message packet.call_id (smt req) EndPointMessage.StartMediaTransmissionResponse
    | _ => [.logError 2]
  | .Response =>
    match packet.call_id with
    | some id => [.deliverReply id packet.message]
    | none => [.logError 3]
  | .Push =>
    match packet.message with
    | .VideoFrame frame => [.runPushHandler (.videoFrame frame)]
    | .AudioFrame frame => [.runPushHandler (.audioFrame frame)]
    | .MouseEventFrame frame => [.runPushHandler (.mouseEventFrame frame)]
    | _ => [.logError 4]

/-! ## Bounded channels and the video frame queue -/

/-- A crossbeam bounded channel: a FIFO queue with a fixed capacity. -/
structure BoundedChannel (α : Type) where
  capacity : Nat
  queue : List α
deriving DecidableEq, Repr

/-- crossbeam try_send on a bounded channel: enqueue when below capacity,
otherwise return the full error and leave the queue unchanged. -/
def try_send {α : Type} (ch : BoundedChannel α) (x : α) : BoundedChannel α × Bool :=
  if ch.queue.length < ch.capacity then
    ({ ch with queue := ch.queue ++ [x] }, true)
  else
    (ch, false)

/-- enqueue_video_frame in endpoint.rs: when the video frame sender was
set, try_send the frame; a full queue only logs a warning (the frame just
submitted is lost, the queue is untouched); with no sender nothing
happens.  Returns the new channel state. -/
def enqueue_video_frame (video_frame_tx : Option (BoundedChannel VideoFrame))
    (video_frame : VideoFrame) : Option (BoundedChannel VideoFrame) :=
  match video_frame_tx with
  | none => none
  | some ch => some (try_send ch video_frame).1

/-- The channel capacities chosen by start_video_render in endpoint.rs:
crossbeam bounded(16) for the encoded-frame-to-decoder channel and
bounded(16) for the decoded-frame-to-renderer channel. -/
def start_video_render_channels : BoundedChannel VideoFrame × BoundedChannel Nat :=
  ({ capacity := 16, queue := [] }, { capacity := 16, queue := [] })

/-! ## start_video_capture: monitor selection and frame rate -/

/-- The monitor record, with the fields start_video_capture reads
(component/monitor is not among the provided sources; the fields and
their uses are visible in endpoint.rs).  refresh_rate is a u8. -/
structure Monitor where
  id : String
  is_primary : Bool
  width : Nat
  height : Nat
  refresh_rate : Nat
deriving DecidableEq, Repr

/-- The monitor chosen by start_video_capture: the first active monitor
whose id equals the requested display id, else the first primary monitor,
else none. -/
def select_monitor (monitors : List Monitor) (display_id : String) : Option Monitor :=
  match List.find? (fun m => m.id = display_id) monitors with
  | some m => some m
  | none => List.find? (fun m => m.is_primary) monitors

/-- The parameters start_video_capture hands to the capture and encode
pipelines: selected monitor id, width, height and frame rate. -/
structure CaptureConfig where
  monitor_id : String
  width : Nat
  height : Nat
  fps : Nat
deriving DecidableEq, Repr

/-- start_video_capture in endpoint.rs: select the monitor (requested id,
else primary, else error) and start the pipelines with
fps = monitor.refresh_rate.min(except_fps).  The active monitor list is a
parameter (monitor::get_active_monitors is platform code outside the
provided sources). -/
def start_video_capture (monitors : List Monitor) (display_id : String)
    (except_fps : Nat) : Except MirrorXError CaptureConfig :=
  match select_monitor monitors display_id with
  | none => .error (.Other 1)
  | some monitor =>
    .ok { monitor_id := monitor.id,
          width := monitor.width,
          height := monitor.height,
          fps := Nat.min monitor.refresh_rate except_fps }

/-! ## connect: handshake prelude and framing limit -/

/-- format with fill character the digit zero, right alignment and width
ten, applied to a device id: left-pad with the character the digit zero up
to ten characters; a longer id stays as it is. -/
def zero_pad_10 (s : List Char) : List Char :=
  if 10 ≤ s.length then s else List.replicate (10 - s.length) '0' ++ s

/-- Byte length of a string under UTF-8, as str::as_bytes().len() sees
it. -/
def utf8_byte_len (s : List Char) : Nat :=
  (s.map Char.utf8Size).sum

/-- The handshake prelude of connect in endpoint.rs: order the two padded
ids as (active, passive) according to is_active_side, fail before any
write when either padded id is not exactly ten bytes, otherwise the bytes
written are the active id followed by the passive id. -/
def handshake_prelude (is_active_side : Bool)
    (local_device_id remote_device_id : List Char) :
    Except MirrorXError (List Char) :=
  let active_device_id :=
    if is_active_side then zero_pad_10 local_device_id
    else zero_pad_10 remote_device_id
  let passive_device_id :=
    if is_active_side then zero_pad_10 remote_device_id
    else zero_pad_10 local_device_id
  if utf8_byte_len active_device_id ≠ 10 then
    .error (.Other 2)
  else if utf8_byte_len passive_device_id ≠ 10 then
    .error (.Other 3)
  else
    .ok (active_device_id ++ passive_device_id)

/-- The check connect applies to the single handshake response byte: any
byte other than 1 fails the connection with an endpoint error. -/
def handshake_response_check (b : Nat) : Except MirrorXError Unit :=
  if b ≠ 1 then .error (.EndPointError "handshake failed") else .ok ()

/-- The maximum frame length connect configures on the little-endian
LengthDelimitedCodec: 16 * 1024 * 1024 bytes. -/
def MAX_FRAME_LENGTH : Nat := 16 * 1024 * 1024

/-- Modelled from the spec: the length-delimited framing layer (the
LengthDelimitedCodec crate, outside this repository) accepts a frame
whose body length is at most the configured maximum and fails the read
with an input-output error when the body is longer. -/
def frame_length_check (body_len : Nat) : Except MirrorXError Unit :=
  if body_len > MAX_FRAME_LENGTH then .error (.IOError 1) else .ok ()

/-! ## Typed call wrappers (make_endpoint_call instances) -/

/-- get_display_info in endpoint.rs (make_endpoint_call instance): issue
the call and match the reply; only the GetDisplayInfoResponse variant is
returned as Ok, every other reply becomes EndPointError carrying the
remote device id.  The transport outcome of the inner call is a
parameter. -/
def get_display_info (remote_device_id : String)
    (call_result : Except MirrorXError EndPointMessage) :
    Except MirrorXError GetDisplayInfoResponse :=
  match call_result with
  | .error e => .error e
  | .ok reply =>
    match reply with
    | .GetDisplayInfoResponse message => .ok message
    | _ => .error (.EndPointError remote_device_id)

/-- start_media_transmission in endpoint.rs (make_endpoint_call
instance), same shape as get_display_info with the
StartMediaTransmissionResponse variant expected. -/
def start_media_transmission (remote_device_id : String)
    (call_result : Except MirrorXError EndPointMessage) :
    Except MirrorXError StartMediaTransmissionResponse :=
  match call_result with
  | .error e => .error e
  | .ok reply =>
    match reply with
    | .StartMediaTransmissionResponse message => .ok message
    | _ => .error (.EndPointError remote_device_id)

/-! ## Call id allocation sequence -/

/-- The u16 counter value after n calls, starting from AtomicU16::new(0)
in connect. -/
def call_id_counter_after : Nat → Nat
  | 0 => 0
  | n + 1 => (fetch_add_u16 (call_id_counter_after n)).2

/-- The call id allocated to the n-th call of a session (counting from
0): the value fetch_add returns on counter state call_id_counter_after n. -/
def nth_call_id (n : Nat) : Nat :=
  (fetch_add_u16 (call_id_counter_after n)).1

/-! ## Statement vocabulary -/

/-- True exactly on the message variants for which handle_message has a
request handler (the two arms of its Request match). -/
def has_request_handler : EndPointMessage → Bool
  | .GetDisplayInfoRequest _ => true
  | .StartMediaTransmissionRequest _ => true
  | _ => false

/-- Checks that every envelope among the effects is a Response carrying
exactly the given call id. -/
def sends_only_response_with_id (effects : List HandleEffect) (call_id : Nat) : Bool :=
  effects.all (fun e =>
    match e with
    | .sendPacket packet =>
      decide (packet.typ = EndPointMessagePacketType.Response ∧
              packet.call_id = some call_id)
    | _ => true)

/-- A video frame channel of capacity 16 filled with sixteen distinct
frames; frame data n was enqueued n-th, so the oldest queued frame is the
one with data 0. -/
def full_video_channel : BoundedChannel VideoFrame :=
  { capacity := 16, queue := (List.range 16).map (fun n => { data := n }) }

/-- True exactly on the GetDisplayInfoResponse variant. -/
def is_get_display_info_response : EndPointMessage → Bool
  | .GetDisplayInfoResponse _ => true
  | _ => false

/-- True exactly on the StartMediaTransmissionResponse variant. -/
def is_start_media_transmission_response : EndPointMessage → Bool
  | .StartMediaTransmissionResponse _ => true
  | _ => false

/-! ## Helper lemmas -/

/-- The u16 counter equals the number of calls made so far, reduced
modulo 2^16. -/
theorem call_id_counter_after_eq (n : Nat) : call_id_counter_after n = n % 65536 := by
  induction n with
  | zero => rfl
  | succ n ih =>
    simp only [call_id_counter_after, fetch_add_u16, ih]
    omega

/-- Closed form of the allocation sequence: the n-th call receives id
n mod 2^16. -/
theorem nth_call_id_eq (n : Nat) : nth_call_id n = n % 65536 := by
  simp only [nth_call_id, fetch_add_u16, call_id_counter_after_eq]
  omega

/-- After filtering out every entry with the given id, lookup of that id
finds nothing. -/
theorem lookup_call_filter_ne (m : PendingCalls) (call_id : Nat) :
    lookup_call (List.filter (fun e => e.1 ≠ call_id) m) call_id = none := by
  have hfind :
      List.find? (fun e => e.1 = call_id) (List.filter (fun e => e.1 ≠ call_id) m) = none := by
    rw [List.find?_eq_none]
    intro x hx
    have hmem := List.mem_filter.mp hx
    simp only [decide_eq_true_eq] at hmem ⊢
    simpa using hmem.2
  simp [lookup_call, hfind]

/-- When lookup finds nothing under an id, filtering that id out changes
nothing. -/
theorem filter_of_lookup_none (m : PendingCalls) (call_id : Nat)
    (h : lookup_call m call_id = none) :
    List.filter (fun e => e.1 ≠ call_id) m = m := by
  have hfind : List.find? (fun e => e.1 = call_id) m = none := by
    cases hf : List.find? (fun e => e.1 = call_id) m with
    | none => rfl
    | some e => simp [lookup_call, hf] at h
  rw [List.filter_eq_self]
  intro a ha
  have hne := List.find?_eq_none.mp hfind a ha
  simpa using hne

/-- UTF-8 byte length distributes over concatenation. -/
theorem utf8_byte_len_append (a b : List Char) :
    utf8_byte_len (a ++ b) = utf8_byte_len a + utf8_byte_len b := by
  simp [utf8_byte_len]

/-! ## Claim C1 -/

/-- C1 counterexample: with decryption that succeeds (the identity on the
frame bytes) and deserialization that fails, one reader iteration on such
a frame breaks out of the loop — after which ENDPOINTS.remove runs — so
the reader does not keep processing subsequent frames as the claim
states. -/
theorem C1_counterexample :
    serve_reader_step (fun bytes => Except.ok bytes) (fun _ => Except.error ())
      (StreamItem.frame [0]) = ReaderAction.exitLoop := by
  rfl

/-- C1 (amended): for every inbound frame that is successfully opened but
whose payload fails deserialization, the session logs the failure and the
reader breaks out of its loop, so the session is torn down (the endpoint
is removed from the registry): deserialization failure is fatal to the
session. -/
theorem C1_deserialization_failure_fatal
    (open_in_place : List Nat → Except Unit (List Nat))
    (deserialize : List Nat → Except Unit EndPointMessagePacket)
    (packet_bytes opened_packet_bytes : List Nat) (e : Unit)
    (hopen : open_in_place packet_bytes = .ok opened_packet_bytes)
    (hdeser : deserialize opened_packet_bytes = .error e) :
    serve_reader_step open_in_place deserialize (StreamItem.frame packet_bytes) =
      ReaderAction.exitLoop := by
  simp [serve_reader_step, hopen, hdeser]

/-- C1 witness: the amended theorem applied to a concrete frame. -/
theorem C1_witness :
    serve_reader_step (fun bytes => Except.ok bytes) (fun _ => Except.error ())
      (StreamItem.frame [1]) = ReaderAction.exitLoop :=
  C1_deserialization_failure_fatal (fun bytes => Except.ok bytes) (fun _ => Except.error ())
    [1] [1] () rfl rfl

/-! ## Claim C2 -/

/-- C2 counterexample: a Request envelope with call id 7 whose message is
the Error variant (which has no request handler) makes handle_message
emit only an error log line; in particular no Error response envelope is
sent back. -/
theorem C2_counterexample :
    handle_message (fun _ => Except.error ()) (fun _ => Except.error ())
        { typ := .Request, call_id := some 7, message := .Error } =
      [HandleEffect.logError 2] ∧
    HandleEffect.sendPacket (reply_packet 7 .Error) ∉ [HandleEffect.logError 2] := by
  exact ⟨rfl, by decide⟩

/-- C2 (amended): an incoming Request envelope whose message variant has
no known handler is only logged: handle_message produces no reply at all
(no Error response envelope is sent), whatever its call id; the session
is not torn down (dispatch merely logs and returns). -/
theorem C2_unknown_request_only_logged
    (gdi : GetDisplayInfoRequest → Except Unit GetDisplayInfoResponse)
    (smt : StartMediaTransmissionRequest → Except Unit StartMediaTransmissionResponse)
    (call_id : Option Nat) (message : EndPointMessage)
    (h : has_request_handler message = false) :
    handle_message gdi smt { typ := .Request, call_id := call_id, message := message } =
      [HandleEffect.logError 2] := by
  cases message <;> simp_all [handle_message, has_request_handler]

/-- C2 witness: the amended theorem applied to a Request carrying the
VideoFrame variant under call id 9. -/
theorem C2_witness :
    handle_message (fun _ => Except.error ()) (fun _ => Except.error ())
        { typ := .Request, call_id := some 9, message := .VideoFrame { data := 3 } } =
      [HandleEffect.logError 2] :=
  C2_unknown_request_only_logged (fun _ => Except.error ()) (fun _ => Except.error ())
    (some 9) (.VideoFrame { data := 3 }) rfl

/-! ## Claim C3 -/

/-- C3 counterexample: with the decoder channel (capacity 16) full of
frames 0..15, enqueueing frame 16 leaves the channel exactly as it was:
the oldest frame (data 0) is still queued and the new frame (data 16) was
dropped — the opposite of the claimed drop-oldest policy. -/
theorem C3_counterexample :
    enqueue_video_frame (some full_video_channel) { data := 16 } = some full_video_channel ∧
    full_video_channel.queue.head? = some { data := 0 } ∧
    ({ data := 16 } : VideoFrame) ∉ full_video_channel.queue := by
  refine ⟨?_, by decide, by decide⟩
  rfl

/-- C3 (amended): the channel from the multiplexer to the video decoder
has capacity 16, and when it is full the newly arrived frame is dropped
and the queue is left unchanged (drop-newest); when it is not full the
new frame is appended; in either case only a warning is logged and the
session stays open. -/
theorem C3_full_video_queue_drops_newest
    (ch : BoundedChannel VideoFrame) (frame : VideoFrame) :
    start_video_render_channels.1.capacity = 16 ∧
    (ch.capacity ≤ ch.queue.length →
      enqueue_video_frame (some ch) frame = some ch) ∧
    (ch.queue.length < ch.capacity →
      enqueue_video_frame (some ch) frame = some { ch with queue := ch.queue ++ [frame] }) := by
  refine ⟨rfl, ?_, ?_⟩
  · intro hfull
    simp [enqueue_video_frame, try_send, Nat.not_lt.mpr hfull]
  · intro hroom
    simp [enqueue_video_frame, try_send, hroom]

/-- C3 witness: the amended theorem applied to the full channel and to
the empty channel created by start_video_render. -/
theorem C3_witness :
    enqueue_video_frame (some full_video_channel) { data := 99 } = some full_video_channel :=
  (C3_full_video_queue_drops_newest full_video_channel { data := 99 }).2.1 (by decide)

/-! ## Claim C4 -/

/-- C4 counterexample: the 65537th call of a session is allocated the
same call id as its first call (the u16 counter wraps), and register_call
on an id that is still pending replaces the stored one-shot slot (slot 10
registered under id 0 is gone once slot 11 is registered under id 0), so
a call id can be reused, and reused while the prior call is outstanding. -/
theorem C4_counterexample :
    nth_call_id 65536 = nth_call_id 0 ∧
    lookup_call (register_call (register_call [] 0 10) 0 11) 0 = some 11 := by
  refine ⟨?_, by decide⟩
  simp [nth_call_id_eq]

/-- C4 (amended): call ids come from a wrapping 16-bit fetch-add counter,
so they are distinct only within a window of 2^16 allocations: any two
calls whose allocation ranks differ by fewer than 65536 receive distinct
call ids; after exactly 65536 intervening allocations the id repeats and
register_call then overwrites the pending slot stored under it. -/
theorem C4_call_id_distinct_within_window (m n : Nat)
    (hlt : m < n) (hwin : n - m < 65536) :
    nth_call_id m ≠ nth_call_id n := by
  simp only [nth_call_id_eq]
  omega

/-- C4 witness: the amended theorem applied to the first two calls of a
session. -/
theorem C4_witness : nth_call_id 0 ≠ nth_call_id 1 :=
  C4_call_id_distinct_within_window 0 1 (by decide) (by decide)

/-! ## Claim C5 -/

/-- C5: for every invocation of call, the deferred cleanup removes the
pending slot of the allocated id on every exit path; a timeout yields the
Timeout error and a send failure yields the transport send error (the
Other variant wrapping the try_send failure); a Response arriving for an
id with no pending slot is dropped without effect (set_call_reply leaves
the map unchanged and delivers to no slot); the default call timeout
CALL_TIMEOUT is 5 seconds. -/
theorem C5_call_cleanup_and_errors
    (s : MuxState) (slot : Nat) (message : EndPointMessage)
    (sendOk : Bool) (ev : CallEvent) (m : PendingCalls) (late_id : Nat)
    (hlate : lookup_call m late_id = none) :
    CALL_TIMEOUT_SECS = 5 ∧
    lookup_call (call s slot message sendOk ev).1.call_reply_tx_map
        (fetch_add_u16 s.atomic_call_id).1 = none ∧
    (call s slot message true CallEvent.timeoutElapsed).2.1 = .error .Timeout ∧
    (call s slot message false ev).2.1 = .error (.Other 0) ∧
    set_call_reply m late_id = (m, none) := by
  refine ⟨rfl, ?_, rfl, rfl, ?_⟩
  · simp only [call, remove_call]
    exact lookup_call_filter_ne _ _
  · simp only [set_call_reply, remove_call, hlate, filter_of_lookup_none m late_id hlate]

/-- C5 witness: the theorem applied to a fresh session state, a timed-out
call and an empty pending map. -/
theorem C5_witness :
    (call { atomic_call_id := 0, call_reply_tx_map := [] } 5 .Error true
        CallEvent.timeoutElapsed).2.1 = .error .Timeout :=
  (C5_call_cleanup_and_errors { atomic_call_id := 0, call_reply_tx_map := [] } 5 .Error
    true CallEvent.timeoutElapsed [] 0 rfl).2.2.1

/-! ## Claim C6 -/

/-- C6: every envelope the endpoint produces is well-formed: call builds a
Request envelope whose call id is Some of the freshly allocated counter
value; reply builds a Response envelope carrying exactly the given call
id, and every envelope handle_message sends while dispatching a Request
with call id is a Response carrying that same id; the push operation
trigger_mouse_event builds a Push envelope with no call id. -/
theorem C6_envelopes_well_formed
    (s : MuxState) (slot : Nat) (message : EndPointMessage) (sendOk : Bool) (ev : CallEvent)
    (gdi : GetDisplayInfoRequest → Except Unit GetDisplayInfoResponse)
    (smt : StartMediaTransmissionRequest → Except Unit StartMediaTransmissionResponse)
    (call_id : Nat) (m : EndPointMessage) (frame : MouseEventFrame) :
    (call s slot message sendOk ev).2.2.typ = .Request ∧
    (call s slot message sendOk ev).2.2.call_id = some ((fetch_add_u16 s.atomic_call_id).1) ∧
    (reply_packet call_id m).typ = .Response ∧
    (reply_packet call_id m).call_id = some call_id ∧
    sends_only_response_with_id
      (handle_message gdi smt { typ := .Request, call_id := some call_id, message := m })
      call_id = true ∧
    (trigger_mouse_event_packet frame).typ = .Push ∧
    (trigger_mouse_event_packet frame).call_id = none := by
  have haux : ∀ {α : Type} (res : Except Unit α) (wrap : α → EndPointMessage),
      sends_only_response_with_id (handle_call_message (some call_id) res wrap) call_id
        = true := by
    intro α res wrap
    cases res <;> simp [handle_call_message, sends_only_response_with_id, reply_packet]
  refine ⟨rfl, rfl, rfl, rfl, ?_, rfl, rfl⟩
  cases m
  case GetDisplayInfoRequest req => exact haux (gdi req) _
  case StartMediaTransmissionRequest req => exact haux (smt req) _
  all_goals rfl

/-! ## Claim C7 -/

/-- C7: start_video_capture selects the monitor whose id matches the
request, else the first primary monitor, and starts the pipeline at
fps = min(expected frame rate, refresh rate of the selected monitor);
when neither a matching nor a primary monitor exists it returns an
error. -/
theorem C7_capture_frame_rate
    (monitors : List Monitor) (display_id : String) (except_fps : Nat) (monitor : Monitor) :
    (List.find? (fun m => m.id = display_id) monitors = some monitor →
      start_video_capture monitors display_id except_fps =
        .ok { monitor_id := monitor.id, width := monitor.width, height := monitor.height,
              fps := Nat.min except_fps monitor.refresh_rate }) ∧
    (List.find? (fun m => m.id = display_id) monitors = none →
      List.find? (fun m => m.is_primary) monitors = some monitor →
      start_video_capture monitors display_id except_fps =
        .ok { monitor_id := monitor.id, width := monitor.width, height := monitor.height,
              fps := Nat.min except_fps monitor.refresh_rate }) ∧
    (select_monitor monitors display_id = none →
      start_video_capture monitors display_id except_fps = .error (.Other 1)) := by
  refine ⟨?_, ?_, ?_⟩
  · intro hid
    simp [start_video_capture, select_monitor, hid, Nat.min_comm]
  · intro hid hprim
    simp [start_video_capture, select_monitor, hid, hprim, Nat.min_comm]
  · intro hsel
    simp [start_video_capture, hsel]

/-- C7 witness: the theorem applied to a concrete monitor list in which
the requested id exists with refresh rate 60 and an expected frame rate
of 30, clamped to 30. -/
theorem C7_witness :
    start_video_capture
        [{ id := "m1", is_primary := false, width := 1920, height := 1080, refresh_rate := 60 },
         { id := "m0", is_primary := true, width := 800, height := 600, refresh_rate := 75 }]
        "m1" 30 =
      .ok { monitor_id := "m1", width := 1920, height := 1080, fps := Nat.min 30 60 } :=
  (C7_capture_frame_rate
    [{ id := "m1", is_primary := false, width := 1920, height := 1080, refresh_rate := 60 },
     { id := "m0", is_primary := true, width := 800, height := 600, refresh_rate := 75 }]
    "m1" 30
    { id := "m1", is_primary := false, width := 1920, height := 1080, refresh_rate := 60 }).1
    (by decide)

/-! ## Claim C8 -/

/-- C8: connect configures the framing layer with a maximum frame length
of 16 MiB; a frame body longer than that fails the framed read (which the
reader answers by breaking out of its loop, ending the session), and a
body at or below the limit passes the length check. -/
theorem C8_max_frame_length
    (body_len short_len : Nat)
    (hover : body_len > 16 * 1024 * 1024) (hshort : short_len ≤ 16 * 1024 * 1024)
    (open_in_place : List Nat → Except Unit (List Nat))
    (deserialize : List Nat → Except Unit EndPointMessagePacket) :
    MAX_FRAME_LENGTH = 16 * 1024 * 1024 ∧
    frame_length_check body_len = .error (.IOError 1) ∧
    frame_length_check short_len = .ok () ∧
    serve_reader_step open_in_place deserialize StreamItem.readError = ReaderAction.exitLoop := by
  refine ⟨rfl, ?_, ?_, rfl⟩
  · simp [frame_length_check, MAX_FRAME_LENGTH, hover]
  · have hn : ¬ short_len > MAX_FRAME_LENGTH := by
      simp only [MAX_FRAME_LENGTH]
      omega
    simp [frame_length_check, hn]

/-- C8 witness: the theorem applied at the boundary, one byte above and
exactly at the 16 MiB limit. -/
theorem C8_witness :
    frame_length_check 16777217 = .error (.IOError 1) ∧
    frame_length_check 16777216 = .ok () := by
  have h := C8_max_frame_length 16777217 16777216 (by omega) (by omega)
    (fun bytes => Except.ok bytes) (fun _ => Except.error ())
  exact ⟨h.2.1, h.2.2.1⟩

/-! ## Claim C9 -/

/-- Any device id whose zero-padded form is not exactly ten bytes makes
the handshake prelude fail before any byte is written, in either role
order. -/
theorem handshake_prelude_error_of_bad_len (is_active_side : Bool) (l r : List Char)
    (h : utf8_byte_len (zero_pad_10 l) ≠ 10 ∨ utf8_byte_len (zero_pad_10 r) ≠ 10) :
    ∃ e, handshake_prelude is_active_side l r = .error e := by
  simp only [handshake_prelude]
  cases is_active_side <;> simp only [Bool.false_eq_true, if_true, if_false, ite_true, ite_false]
  all_goals
    split
    · exact ⟨.Other 2, rfl⟩
    · split
      · exact ⟨.Other 3, rfl⟩
      · rcases h with h | h <;> simp_all

/-- C9: whenever connect completes its handshake prelude, the bytes
written before any framed traffic are exactly 20 — the 10-byte
zero-padded active peer id followed by the 10-byte passive peer id, in
that role order whether the local side is active or passive; the
handshake completes iff the single response byte equals 1; and an id that
is not exactly 10 bytes after zero-padding makes the prelude fail (no
bytes are produced). -/
theorem C9_handshake_prelude_spec
    (is_active_side : Bool) (local_device_id remote_device_id : List Char)
    (bytes : List Char) (b : Nat)
    (hok : handshake_prelude is_active_side local_device_id remote_device_id = .ok bytes) :
    utf8_byte_len bytes = 20 ∧
    bytes =
      (if is_active_side then zero_pad_10 local_device_id else zero_pad_10 remote_device_id) ++
      (if is_active_side then zero_pad_10 remote_device_id else zero_pad_10 local_device_id) ∧
    (handshake_response_check b = .ok () ↔ b = 1) ∧
    (∀ l r : List Char,
      utf8_byte_len (zero_pad_10 l) ≠ 10 ∨ utf8_byte_len (zero_pad_10 r) ≠ 10 →
      ∃ e, handshake_prelude is_active_side l r = .error e) := by
  have hresp : handshake_response_check b = .ok () ↔ b = 1 := by
    constructor
    · intro hb
      by_contra hne
      simp [handshake_response_check, hne] at hb
    · intro hb
      simp [handshake_response_check, hb]
  simp only [handshake_prelude] at hok
  cases is_active_side
  all_goals simp only [Bool.false_eq_true, if_true, if_false, ite_true, ite_false] at hok ⊢
  all_goals (
    split at hok
    · exact absurd hok (by simp)
    · split at hok
      · exact absurd hok (by simp)
      · rename_i h1 h2
        injection hok with hb
        subst hb
        refine ⟨?_, rfl, hresp,
          fun l r h => handshake_prelude_error_of_bad_len _ l r h⟩
        rw [utf8_byte_len_append]
        omega)

/-- C9 witness: the theorem applied to the concrete ids 1 and 2 on the
active side; each pads to ten ASCII bytes and the prelude is their
20-byte concatenation. -/
theorem C9_witness :
    utf8_byte_len (zero_pad_10 ['1'] ++ zero_pad_10 ['2']) = 20 :=
  (C9_handshake_prelude_spec true ['1'] ['2']
    (zero_pad_10 ['1'] ++ zero_pad_10 ['2']) 1 rfl).1

/-! ## Claim C10 -/

/-- C10: each typed call wrapper returns Ok exactly on its expected
response variant: get_display_info turns any other reply into
EndPointError carrying the remote device id and returns Ok only on a
GetDisplayInfoResponse; start_media_transmission does the same for
StartMediaTransmissionResponse. -/
theorem C10_typed_wrappers_check_variant
    (remote_device_id : String) (reply1 reply2 : EndPointMessage)
    (resp : GetDisplayInfoResponse) (sresp : StartMediaTransmissionResponse)
    (hg : is_get_display_info_response reply1 = false)
    (hs : is_start_media_transmission_response reply2 = false) :
    get_display_info remote_device_id (.ok reply1) =
      .error (.EndPointError remote_device_id) ∧
    get_display_info remote_device_id (.ok (.GetDisplayInfoResponse resp)) = .ok resp ∧
    start_media_transmission remote_device_id (.ok reply2) =
      .error (.EndPointError remote_device_id) ∧
    start_media_transmission remote_device_id
        (.ok (.StartMediaTransmissionResponse sresp)) = .ok sresp := by
  refine ⟨?_, rfl, ?_, rfl⟩
  · cases reply1 <;> simp_all [get_display_info, is_get_display_info_response]
  · cases reply2 <;> simp_all [start_media_transmission, is_start_media_transmission_response]

/-- C10 witness: a reply of the wrong variant (a
StartMediaTransmissionResponse handed to get_display_info, and the Error
message handed to start_media_transmission) is rejected with
EndPointError. -/
theorem C10_witness :
    get_display_info "peer" (.ok (.StartMediaTransmissionResponse { data := 0 })) =
      .error (.EndPointError "peer") :=
  (C10_typed_wrappers_check_variant "peer"
    (.StartMediaTransmissionResponse { data := 0 }) .Error
    { data := 0 } { data := 0 } rfl rfl).1

end MirrorX
